import Mathlib

/-!
Verification of the red-teaming CLI orchestrator (`src/humanbound/redteam.py`).

The program is a single-file CLI that (a) materializes a connection
descriptor (`bot.json`) from two environment credentials and (b) sequences
invocations of an external engine (`aiandme`).  We embed it shallowly:

* the environment is the pair of optional credential strings
  (`FOODIE_API_URL`, `FOODIE_API_KEY`);
* the file system is the optional content of the descriptor file;
* every external process invocation is recorded as an event carrying the
  exact command string and the exit code the external world returned;
* the external world is an oracle `String → Nat` giving the exit code of
  each command string (no command string is invoked twice in any single
  execution of the program, so this loses no generality);
* `sys.exit(msg)` is a fatal outcome; normal return of a command handler
  is the ok outcome (the process then exits with code zero).
-/

namespace Redteam

/-- A header or payload mapping of the descriptor.  In the source every
value occurring in these mappings is a string literal, so we model the
JSON objects as association lists of strings. -/
abbrev StrMap := List (String × String)

/-- One of the three endpoint sections of the descriptor
(`thread_auth`, `thread_init`, `chat_completion`): endpoint, headers,
payload (source lines 99-119). -/
structure BotSection where
  endpoint : String
  headers : StrMap
  payload : StrMap
deriving DecidableEq, Repr

/-- The connection descriptor written to `bot.json` (source lines 97-120). -/
structure BotConfig where
  streaming : Bool
  thread_auth : BotSection
  thread_init : BotSection
  chat_completion : BotSection
deriving DecidableEq, Repr

/-- The credential environment: the two values `FOODIE_API_URL` and
`FOODIE_API_KEY`, each possibly absent (source lines 50-51). -/
structure Env where
  url : Option String
  key : Option String
deriving DecidableEq, Repr

/-- Python truthiness of an optional string: `None` and `""` are falsy. -/
def truthy : Option String → Bool
  | none => false
  | some s => decide (s ≠ "")

/-- An observable effect of one execution: an external process invocation
(with the command string and the exit code the external world produced for
it), or a write of the descriptor file. -/
inductive Event where
  | exec (cmd : String) (code : Nat)
  | write (cfg : BotConfig)
deriving DecidableEq, Repr

/-- How a command handler ends: normal return (the process then exits 0),
or `sys.exit(msg)` (fatal, non-zero exit). -/
inductive Outcome where
  | ok
  | fatal (msg : String)
deriving DecidableEq, Repr

/-- Execution state: the ordered trace of effects so far and the current
content of the descriptor file (`none` = the file does not exist). -/
structure St where
  events : List Event
  fs : Option BotConfig
deriving DecidableEq, Repr

/-- The external world: the exit code of each external command string. -/
abbrev Oracle := String → Nat

/-- `BOT_CONFIG_FILE` (source line 33).  The source resolves it next to
the script file; the path itself is fixed for the whole process, and we
keep only its fixed basename. -/
def BOT_CONFIG_FILE : String := "bot.json"

/-- `TEST_CATEGORIES` (source lines 35-40). -/
def TEST_CATEGORIES (k : String) : String :=
  if k = "single" then "aiandme/adversarial/owasp_single_turn"
  else if k = "multi" then "aiandme/adversarial/owasp_multi_turn"
  else if k = "agentic" then "aiandme/adversarial/owasp_agentic_multi_turn"
  else if k = "behavioral" then "aiandme/behavioral/behavioral"
  else ""

/-- `TEST_LEVELS` (source line 42). -/
def TEST_LEVELS : List String := ["unit", "system", "acceptance"]

/-- The fatal message of `load_config` (source lines 53-56). -/
def CRED_ERROR : String :=
  "Error: FOODIE_API_URL and FOODIE_API_KEY must be set.\nCopy .env.example to .env and fill in your values."

/-- The fatal message of the level check (source line 159, formatting the
Python tuple `TEST_LEVELS`). -/
def LEVEL_ERROR : String :=
  "Error: level must be one of ('unit', 'system', 'acceptance')"

/-- `load_config` (source lines 47-57): return the credential pair, or
exit fatally when either value is absent or empty. -/
def load_config (env : Env) : Except String (String × String) :=
  if truthy env.url = false ∨ truthy env.key = false then
    Except.error CRED_ERROR
  else
    Except.ok (env.url.getD "", env.key.getD "")

/-- `run` (source lines 60-67): invoke an external command, record the
event, and return `false` exactly when `check` holds and the exit code is
non-zero.  It never raises. -/
def run (o : Oracle) (cmd : String) (check : Bool) (s : St) : St × Bool :=
  let code := o cmd
  ({ s with events := s.events ++ [Event.exec cmd code] },
   if check ∧ code ≠ 0 then false else true)

/-- `ensure_logged_in` (source lines 77-89): probe the session with the
zero-argument `aiandme whoami`; when the probe exits non-zero, invoke the
interactive `aiandme login` flow (through `run`) and do not re-verify. -/
def ensure_logged_in (o : Oracle) (s : St) : St :=
  let code := o "aiandme whoami"
  let s := { s with events := s.events ++ [Event.exec "aiandme whoami" code] }
  if code ≠ 0 then (run o "aiandme login" true s).1 else s

/-- The descriptor `cmd_setup` builds (source lines 97-120). -/
def bot_config (url key : String) : BotConfig :=
  { streaming := false
    thread_auth :=
      { endpoint := "", headers := [], payload := [] }
    thread_init :=
      { endpoint := url
        headers := [("Content-Type", "application/json"), ("x-api-key", key)]
        payload := [("input", "clear")] }
    chat_completion :=
      { endpoint := url
        headers := [("Content-Type", "application/json"), ("x-api-key", key)]
        payload := [("input", "$PROMPT")] } }

/-- `cmd_setup` (source lines 93-129): load credentials (fatal when
missing) and only then write the descriptor file, overwriting any
existing one. -/
def cmd_setup (env : Env) (s : St) : St × Outcome :=
  match load_config env with
  | Except.error msg => (s, Outcome.fatal msg)
  | Except.ok (url, key) =>
      let cfg := bot_config url key
      ({ events := s.events ++ [Event.write cfg], fs := some cfg }, Outcome.ok)

/-- `ensure_bot_json` (source lines 70-74): generate the descriptor via
`cmd_setup` only when the file does not exist. -/
def ensure_bot_json (env : Env) (s : St) : St × Outcome :=
  match s.fs with
  | some _ => (s, Outcome.ok)
  | none => cmd_setup env s

/-- `cmd_init` (source lines 132-136). -/
def cmd_init (o : Oracle) (env : Env) (s : St) : St × Outcome :=
  let s := ensure_logged_in o s
  match ensure_bot_json env s with
  | (s, Outcome.ok) =>
      ((run o ("aiandme init -e " ++ BOT_CONFIG_FILE) true s).1, Outcome.ok)
  | r => r

/-- The flags and options of the `test` subcommand (source lines 293-306).
Through `main`, argparse makes the four category flags mutually exclusive,
defaults `level` to `"unit"` and leaves `fail_on` unset by default. -/
structure TestArgs where
  single : Bool
  agentic : Bool
  behavioral : Bool
  adaptive : Bool
  level : String
  fail_on : Option String
deriving DecidableEq, Repr

/-- `cmd_test` (source lines 139-176): auth guard, descriptor guard,
category resolution by the if/elif chain, level validation, command
construction and the single blocking invocation. -/
def cmd_test (o : Oracle) (env : Env) (args : TestArgs) (s : St) : St × Outcome :=
  let s := ensure_logged_in o s
  match ensure_bot_json env s with
  | (s, Outcome.ok) =>
      let category :=
        if args.single then TEST_CATEGORIES "single"
        else if args.agentic then TEST_CATEGORIES "agentic"
        else if args.behavioral then TEST_CATEGORIES "behavioral"
        else if args.adaptive then TEST_CATEGORIES "multi"
        else TEST_CATEGORIES "multi"
      if args.level ∉ TEST_LEVELS then
        (s, Outcome.fatal LEVEL_ERROR)
      else
        let cmd :=
          "aiandme test" ++ " -e " ++ BOT_CONFIG_FILE ++ " -t " ++ category
            ++ " -l " ++ args.level ++ " --wait"
        let cmd := if args.adaptive then cmd ++ " --adaptive" else cmd
        let cmd :=
          match args.fail_on with
          | some sev => cmd ++ " --fail-on=" ++ sev
          | none => cmd
        ((run o cmd true s).1, Outcome.ok)
  | r => r

/-- `cmd_status` (source lines 179-185). -/
def cmd_status (o : Oracle) (watch : Bool) (s : St) : St :=
  let s := ensure_logged_in o s
  let cmd := if watch then "aiandme status" ++ " --watch" else "aiandme status"
  (run o cmd true s).1

/-- `cmd_logs` (source lines 188-194). -/
def cmd_logs (o : Oracle) (failed : Bool) (s : St) : St :=
  let s := ensure_logged_in o s
  let cmd := if failed then "aiandme logs" ++ " --verdict fail" else "aiandme logs"
  (run o cmd true s).1

/-- `cmd_posture` (source lines 197-200). -/
def cmd_posture (o : Oracle) (s : St) : St :=
  let s := ensure_logged_in o s
  (run o "aiandme posture" true s).1

/-- The flags of the `guardrails` subcommand with the defaults `main`
installs (source lines 320-326): vendor defaults to the engine-native
`"aiandme"`, format to `"json"`, output path unset. -/
structure GuardrailsArgs where
  vendor : String
  format : String
  output : Option String
deriving DecidableEq, Repr

/-- The `guardrails` argument record produced by argparse when no flag is
given (source lines 320-326). -/
def guardrailsDefaults : GuardrailsArgs :=
  { vendor := "aiandme", format := "json", output := none }

/-- `cmd_guardrails` (source lines 203-211). -/
def cmd_guardrails (o : Oracle) (args : GuardrailsArgs) (s : St) : St :=
  let s := ensure_logged_in o s
  let cmd := "aiandme guardrails --vendor " ++ args.vendor ++ " --format " ++ args.format
  let cmd :=
    match args.output with
    | some p => cmd ++ " -o " ++ p
    | none => cmd
  (run o cmd true s).1

/-- `cmd_full` (source lines 214-261): the six-step workflow.  Steps 4-6
pass `check=False` to `run`; step 3 uses the default `check=True`, but
`run` never raises, so its result does not stop the pipeline either. -/
def cmd_full (o : Oracle) (env : Env) (s : St) : St × Outcome :=
  match cmd_setup env s with
  | (s, Outcome.ok) =>
      let s := ensure_logged_in o s
      let s := (run o ("aiandme init -e " ++ BOT_CONFIG_FILE) true s).1
      let s := (run o ("aiandme test -e " ++ BOT_CONFIG_FILE
        ++ " -t " ++ TEST_CATEGORIES "single" ++ " -l unit --wait") false s).1
      let s := (run o ("aiandme test -e " ++ BOT_CONFIG_FILE
        ++ " -t " ++ TEST_CATEGORIES "multi" ++ " -l unit --wait") false s).1
      let s := (run o "aiandme posture" false s).1
      let s := (run o "aiandme logs --verdict fail" false s).1
      (s, Outcome.ok)
  | r => r

/-- The trace the auth guard appends when started on trace `pre`:
a single successful probe, or the probe followed by the login flow. -/
def authTrace (o : Oracle) : List Event :=
  if o "aiandme whoami" = 0 then
    [Event.exec "aiandme whoami" 0]
  else
    [Event.exec "aiandme whoami" (o "aiandme whoami"),
     Event.exec "aiandme login" (o "aiandme login")]

/-- Whether an event is an external invocation of the engine's `test`
operation. -/
def isTestExec : Event → Bool
  | Event.exec c _ => List.isPrefixOf "aiandme test".toList c.toList
  | Event.write _ => false

/-- Whether an event is a write of the descriptor file. -/
def isWrite : Event → Bool
  | Event.exec _ _ => false
  | Event.write _ => true

/-- The `test` invocation the spec predicts for each mutually exclusive
combination of the four category flags (spec §4.3 and §8): precedence
single, then agentic, then behavioral, then adaptive (multi-turn category
plus the adaptive-mode flag), default multi-turn.  This is the spec-side
definition, spelled with the literal command strings, to be compared
against what `cmd_test` emits. -/
def specTestInvocation (sF aF bF adF : Bool) : String :=
  if sF then
    "aiandme test -e bot.json -t aiandme/adversarial/owasp_single_turn -l unit --wait"
  else if aF then
    "aiandme test -e bot.json -t aiandme/adversarial/owasp_agentic_multi_turn -l unit --wait"
  else if bF then
    "aiandme test -e bot.json -t aiandme/behavioral/behavioral -l unit --wait"
  else if adF then
    "aiandme test -e bot.json -t aiandme/adversarial/owasp_multi_turn -l unit --wait --adaptive"
  else
    "aiandme test -e bot.json -t aiandme/adversarial/owasp_multi_turn -l unit --wait"

/-- A concrete external world in which every invocation succeeds (for
witnesses). -/
def oZero : Oracle := fun _ => 0

/-- A concrete external world in which the `init` invocation (step 3 of
the full workflow) and the single-turn `test` invocation (step 4) exit
non-zero and everything else succeeds (for witnesses). -/
def oFail : Oracle := fun c =>
  if c = "aiandme init -e bot.json" then 1
  else if c = "aiandme test -e bot.json -t aiandme/adversarial/owasp_single_turn -l unit --wait" then 2
  else 0

/-- A concrete descriptor (for witnesses). -/
def cfgW : BotConfig := bot_config "https://api.example/chat" "secretkey"

/-! ### Helper lemmas -/

/-- The first component of `run` appends exactly one invocation event and
leaves the descriptor file untouched. -/
theorem run_fst (o : Oracle) (cmd : String) (check : Bool) (s : St) :
    (run o cmd check s).1 =
      { events := s.events ++ [Event.exec cmd (o cmd)], fs := s.fs } := rfl

/-- The auth guard appends exactly `authTrace o` and touches nothing else. -/
theorem ensure_logged_in_eq (o : Oracle) (s : St) :
    ensure_logged_in o s = { events := s.events ++ authTrace o, fs := s.fs } := by
  unfold ensure_logged_in authTrace
  by_cases hw : o "aiandme whoami" = 0 <;> simp [hw, run]

/-- `cmd_setup` on valid credentials: one write event, descriptor file
replaced, normal return. -/
theorem cmd_setup_ok (u k : String) (s : St) (hu : u ≠ "") (hk : k ≠ "") :
    cmd_setup { url := some u, key := some k } s =
      ({ events := s.events ++ [Event.write (bot_config u k)],
         fs := some (bot_config u k) }, Outcome.ok) := by
  simp [cmd_setup, load_config, truthy, hu, hk]

/-- `cmd_setup` on missing or empty credentials: fatal, state untouched. -/
theorem cmd_setup_fatal (env : Env) (s : St)
    (h : truthy env.url = false ∨ truthy env.key = false) :
    cmd_setup env s = (s, Outcome.fatal CRED_ERROR) := by
  unfold cmd_setup load_config
  rcases h with h | h <;> simp [h]

/-- Neither of the two possible auth-guard traces contains a `test`
invocation. -/
theorem authTrace_no_test (o : Oracle) :
    ∀ e ∈ authTrace o, isTestExec e = false := by
  intro e he
  unfold authTrace at he
  by_cases hw : o "aiandme whoami" = 0 <;> simp [hw] at he <;>
    rcases he with rfl | rfl <;> rfl

/-- Neither of the two possible auth-guard traces writes the descriptor. -/
theorem authTrace_no_write (o : Oracle) :
    ∀ e ∈ authTrace o, isWrite e = false := by
  intro e he
  unfold authTrace at he
  by_cases hw : o "aiandme whoami" = 0 <;> simp [hw] at he <;>
    rcases he with rfl | rfl <;> rfl

/-! ### C3 — setup aborts before any write when credentials are missing -/

/-- C3: for every credential state in which the url or the key is absent
or the empty string, `setup` ends in the fatal credential error and the
state (trace and descriptor file) is exactly the initial one, so nothing
was written before the process terminated. -/
theorem c3_setup_aborts_before_write (env : Env) (s : St)
    (h : truthy env.url = false ∨ truthy env.key = false) :
    cmd_setup env s = (s, Outcome.fatal CRED_ERROR) :=
  cmd_setup_fatal env s h

/-- C3 witness: empty url, concrete key, empty initial state. -/
theorem c3_setup_aborts_before_write_witness :
    (truthy (Env.mk (some "") (some "secretkey")).url = false ∨
      truthy (Env.mk (some "") (some "secretkey")).key = false) ∧
    cmd_setup (Env.mk (some "") (some "secretkey")) (St.mk [] none) =
      (St.mk [] none, Outcome.fatal CRED_ERROR) :=
  ⟨Or.inl (by decide),
   c3_setup_aborts_before_write (Env.mk (some "") (some "secretkey"))
     (St.mk [] none) (Or.inl (by decide))⟩

/-! ### C7 — the two payload templates are fixed -/

/-- C7: for every valid non-empty credential pair, the descriptor written
by `setup` has `thread_init.payload` equal to the fixed session-reset
signal `{"input": "clear"}` and `chat_completion.payload` equal to the
fixed placeholder payload `{"input": "$PROMPT"}`, whatever the url and
key are. -/
theorem c7_setup_payloads_fixed (u k : String) (s : St)
    (hu : u ≠ "") (hk : k ≠ "") :
    ∃ cfg, cmd_setup (Env.mk (some u) (some k)) s =
        ({ events := s.events ++ [Event.write cfg], fs := some cfg },
         Outcome.ok) ∧
      cfg.thread_init.payload = [("input", "clear")] ∧
      cfg.chat_completion.payload = [("input", "$PROMPT")] :=
  ⟨bot_config u k, cmd_setup_ok u k s hu hk, rfl, rfl⟩

/-- C7 witness: concrete url and key. -/
theorem c7_setup_payloads_fixed_witness :
    ("https://api.example/chat" ≠ "" ∧ "secretkey" ≠ "") ∧
    ∃ cfg, cmd_setup (Env.mk (some "https://api.example/chat") (some "secretkey"))
          (St.mk [] none) =
        ({ events := [Event.write cfg], fs := some cfg }, Outcome.ok) ∧
      cfg.thread_init.payload = [("input", "clear")] ∧
      cfg.chat_completion.payload = [("input", "$PROMPT")] :=
  ⟨⟨by decide, by decide⟩,
   c7_setup_payloads_fixed "https://api.example/chat" "secretkey"
     (St.mk [] none) (by decide) (by decide)⟩

/-! ### C10 — streaming flag and thread_auth section are fixed -/

/-- C10: for every valid credential pair, the descriptor written by
`setup` has `streaming = false` and a `thread_auth` section whose
endpoint is the empty string and whose headers and payload are empty
mappings, whatever the url and key are. -/
theorem c10_setup_streaming_auth_fixed (u k : String) (s : St)
    (hu : u ≠ "") (hk : k ≠ "") :
    ∃ cfg, cmd_setup (Env.mk (some u) (some k)) s =
        ({ events := s.events ++ [Event.write cfg], fs := some cfg },
         Outcome.ok) ∧
      cfg.streaming = false ∧
      cfg.thread_auth.endpoint = "" ∧
      cfg.thread_auth.headers = [] ∧
      cfg.thread_auth.payload = [] :=
  ⟨bot_config u k, cmd_setup_ok u k s hu hk, rfl, rfl, rfl, rfl⟩

/-- C10 witness: concrete url and key. -/
theorem c10_setup_streaming_auth_fixed_witness :
    ("https://api.example/v2" ≠ "" ∧ "topsecret" ≠ "") ∧
    ∃ cfg, cmd_setup (Env.mk (some "https://api.example/v2") (some "topsecret"))
          (St.mk [] none) =
        ({ events := [Event.write cfg], fs := some cfg }, Outcome.ok) ∧
      cfg.streaming = false ∧
      cfg.thread_auth.endpoint = "" ∧
      cfg.thread_auth.headers = [] ∧
      cfg.thread_auth.payload = [] :=
  ⟨⟨by decide, by decide⟩,
   c10_setup_streaming_auth_fixed "https://api.example/v2" "topsecret"
     (St.mk [] none) (by decide) (by decide)⟩

/-! ### C8 — shape of the session guard, and its absence from setup -/

/-- C8: the session guard first probes authentication with the
zero-argument `aiandme whoami`; exactly when that probe exits non-zero it
invokes the interactive `aiandme login` flow, after which it performs no
further invocation (no re-verification); and `cmd_setup` never performs
the guard — every event `setup` ever adds to the trace is a descriptor
write, never an external invocation. -/
theorem c8_session_guard_shape (o : Oracle) (s : St) (env : Env) :
    ensure_logged_in o s =
      { events := s.events ++
          (if o "aiandme whoami" = 0 then
            [Event.exec "aiandme whoami" 0]
          else
            [Event.exec "aiandme whoami" (o "aiandme whoami"),
             Event.exec "aiandme login" (o "aiandme login")]),
        fs := s.fs } ∧
    ∀ e ∈ (cmd_setup env s).1.events, isWrite e = true ∨ e ∈ s.events := by
  constructor
  · rw [ensure_logged_in_eq]
    unfold authTrace
    rfl
  · intro e he
    unfold cmd_setup at he
    cases hl : load_config env with
    | error msg => rw [hl] at he; exact Or.inr he
    | ok p =>
        rw [hl] at he
        simp only [List.mem_append, List.mem_singleton] at he
        rcases he with he | rfl
        · exact Or.inr he
        · exact Or.inl rfl

/-! ### C6 — guardrails defaults -/

/-- C6: `guardrails` invoked with no flags (argparse then supplies the
defaults `vendor="aiandme"` — the engine-native vendor, which the spec
calls `native` — and `format="json"`, with no output path) issues exactly
one invocation after the auth guard, whose literal command string carries
`--vendor aiandme --format json` and has no `-o` output option appended. -/
theorem c6_guardrails_defaults (o : Oracle) (s : St) :
    cmd_guardrails o guardrailsDefaults s =
      { events := s.events ++ authTrace o ++
          [Event.exec "aiandme guardrails --vendor aiandme --format json"
            (o "aiandme guardrails --vendor aiandme --format json")],
        fs := s.fs } := by
  simp [cmd_guardrails, guardrailsDefaults, ensure_logged_in_eq, run]

/-! ### C4 — the full workflow always completes normally -/

/-- C4: for every external world (any combination of exit codes of the
step invocations) and any present credentials, `cmd_full` returns
normally — the process then exits with code zero. -/
theorem c4_full_exits_zero (o : Oracle) (u k : String) (s : St)
    (hu : u ≠ "") (hk : k ≠ "") :
    (cmd_full o (Env.mk (some u) (some k)) s).2 = Outcome.ok := by
  unfold cmd_full
  rw [cmd_setup_ok u k s hu hk]

/-- C4 witness: a world where steps 3 and 4 exit non-zero. -/
theorem c4_full_exits_zero_witness :
    ("https://api.example/chat" ≠ "" ∧ "secretkey" ≠ "") ∧
    (cmd_full oFail (Env.mk (some "https://api.example/chat") (some "secretkey"))
        (St.mk [] none)).2 = Outcome.ok :=
  ⟨⟨by decide, by decide⟩,
   c4_full_exits_zero oFail "https://api.example/chat" "secretkey"
     (St.mk [] none) (by decide) (by decide)⟩

/-! ### C1 — the full workflow runs its six steps once, in order -/

/-- C1: when credential loading succeeds, the trace of the full workflow
is exactly: the descriptor write (step 1), the auth-guard trace (step 2:
the probe alone, or probe then login), the `init` invocation (step 3),
the single-turn unit test (step 4), the multi-turn unit test (step 5),
then posture and the failing-findings report (step 6) — each exactly
once, in this order, for every external world, in particular when the
invocations of steps 3 or 4 exit non-zero. -/
theorem c1_full_six_steps_in_order (o : Oracle) (u k : String)
    (fs : Option BotConfig) (hu : u ≠ "") (hk : k ≠ "") :
    (cmd_full o (Env.mk (some u) (some k)) (St.mk [] fs)).1.events =
      Event.write (bot_config u k) :: authTrace o ++
        [Event.exec "aiandme init -e bot.json"
           (o "aiandme init -e bot.json"),
         Event.exec
           "aiandme test -e bot.json -t aiandme/adversarial/owasp_single_turn -l unit --wait"
           (o "aiandme test -e bot.json -t aiandme/adversarial/owasp_single_turn -l unit --wait"),
         Event.exec
           "aiandme test -e bot.json -t aiandme/adversarial/owasp_multi_turn -l unit --wait"
           (o "aiandme test -e bot.json -t aiandme/adversarial/owasp_multi_turn -l unit --wait"),
         Event.exec "aiandme posture" (o "aiandme posture"),
         Event.exec "aiandme logs --verdict fail"
           (o "aiandme logs --verdict fail")] := by
  unfold cmd_full
  rw [cmd_setup_ok u k (St.mk [] fs) hu hk]
  simp [ensure_logged_in_eq, run, BOT_CONFIG_FILE, TEST_CATEGORIES]

/-- C1 witness: a world where the step-3 `init` invocation exits 1 and
the step-4 single-turn test exits 2; steps 4, 5 and 6 still appear, once
each, in order. -/
theorem c1_full_six_steps_in_order_witness :
    ("https://api.example/chat" ≠ "" ∧ "secretkey" ≠ "") ∧
    (cmd_full oFail (Env.mk (some "https://api.example/chat") (some "secretkey"))
        (St.mk [] none)).1.events =
      Event.write (bot_config "https://api.example/chat" "secretkey") ::
        authTrace oFail ++
        [Event.exec "aiandme init -e bot.json"
           (oFail "aiandme init -e bot.json"),
         Event.exec
           "aiandme test -e bot.json -t aiandme/adversarial/owasp_single_turn -l unit --wait"
           (oFail "aiandme test -e bot.json -t aiandme/adversarial/owasp_single_turn -l unit --wait"),
         Event.exec
           "aiandme test -e bot.json -t aiandme/adversarial/owasp_multi_turn -l unit --wait"
           (oFail "aiandme test -e bot.json -t aiandme/adversarial/owasp_multi_turn -l unit --wait"),
         Event.exec "aiandme posture" (oFail "aiandme posture"),
         Event.exec "aiandme logs --verdict fail"
           (oFail "aiandme logs --verdict fail")] :=
  ⟨⟨by decide, by decide⟩,
   c1_full_six_steps_in_order oFail "https://api.example/chat" "secretkey"
     none (by decide) (by decide)⟩

/-! ### C2 — category resolution of the test command -/

/-- C2: for every mutually exclusive combination of the four category
flags (at most one set), `cmd_test` (at the default level `unit`, no
severity threshold, descriptor present) emits, after the auth-guard
trace, exactly one invocation, and its command string is the one the
spec's precedence predicts (`specTestInvocation`): single, then agentic,
then behavioral, then adaptive — which selects the multi-turn category
and appends the adaptive-mode flag — and the multi-turn category when all
flags are false. -/
theorem c2_test_category_resolution (o : Oracle) (env : Env)
    (cfg : BotConfig) (sF aF bF adF : Bool)
    (h : sF.toNat + aF.toNat + bF.toNat + adF.toNat ≤ 1) :
    cmd_test o env (TestArgs.mk sF aF bF adF "unit" none)
        (St.mk [] (some cfg)) =
      ({ events := authTrace o ++
          [Event.exec (specTestInvocation sF aF bF adF)
            (o (specTestInvocation sF aF bF adF))],
         fs := some cfg }, Outcome.ok) := by
  cases sF <;> cases aF <;> cases bF <;> cases adF <;>
    first
      | exact absurd h (by decide)
      | simp [cmd_test, ensure_logged_in_eq, ensure_bot_json, run,
          specTestInvocation, TEST_CATEGORIES, TEST_LEVELS, BOT_CONFIG_FILE]

/-- C2 witness: the adaptive flag alone selects the multi-turn category
and appends the adaptive-mode flag. -/
theorem c2_test_category_resolution_witness :
    (Bool.toNat false + Bool.toNat false + Bool.toNat false
        + Bool.toNat true ≤ 1) ∧
    cmd_test oZero (Env.mk (some "u") (some "k"))
        (TestArgs.mk false false false true "unit" none)
        (St.mk [] (some cfgW)) =
      ({ events := authTrace oZero ++
          [Event.exec (specTestInvocation false false false true)
            (oZero (specTestInvocation false false false true))],
         fs := some cfgW }, Outcome.ok) :=
  ⟨by decide,
   c2_test_category_resolution oZero (Env.mk (some "u") (some "k")) cfgW
     false false false true (by decide)⟩

/-! ### C5 — level validation -/

/-- C5: for every `test` invocation whose level value lies outside
`{unit, system, acceptance}`, `cmd_test` ends fatally and no external
`test` invocation appears in its trace (the auth-guard probe, the login
flow and a possible descriptor regeneration are the only effects). -/
theorem c5_bad_level_is_fatal_no_test (o : Oracle) (env : Env)
    (fs : Option BotConfig) (args : TestArgs)
    (h : args.level ∉ TEST_LEVELS) :
    (∃ msg, (cmd_test o env args (St.mk [] fs)).2 = Outcome.fatal msg) ∧
    ∀ e ∈ (cmd_test o env args (St.mk [] fs)).1.events,
      isTestExec e = false := by
  unfold cmd_test
  rw [ensure_logged_in_eq]
  cases fs with
  | some cfg =>
      simp only [ensure_bot_json, if_pos h]
      refine ⟨⟨LEVEL_ERROR, rfl⟩, ?_⟩
      intro e he
      simp only [List.nil_append] at he
      exact authTrace_no_test o e he
  | none =>
      simp only [ensure_bot_json]
      cases hl : load_config env with
      | error msg =>
          simp only [cmd_setup, hl]
          exact ⟨⟨msg, rfl⟩, fun e he => authTrace_no_test o e (by simpa using he)⟩
      | ok p =>
          obtain ⟨u, k⟩ := p
          simp only [cmd_setup, hl, if_pos h]
          refine ⟨⟨LEVEL_ERROR, rfl⟩, ?_⟩
          intro e he
          simp only [List.nil_append, List.mem_append, List.mem_singleton] at he
          rcases he with he | rfl
          · exact authTrace_no_test o e he
          · rfl

/-- C5 witness: the level value `weird`. -/
theorem c5_bad_level_is_fatal_no_test_witness :
    ("weird" ∉ TEST_LEVELS) ∧
    ((∃ msg, (cmd_test oZero (Env.mk (some "u") (some "k"))
        (TestArgs.mk false false false false "weird" none)
        (St.mk [] (some cfgW))).2 = Outcome.fatal msg) ∧
      ∀ e ∈ (cmd_test oZero (Env.mk (some "u") (some "k"))
          (TestArgs.mk false false false false "weird" none)
          (St.mk [] (some cfgW))).1.events,
        isTestExec e = false) :=
  ⟨by decide,
   c5_bad_level_is_fatal_no_test oZero (Env.mk (some "u") (some "k"))
     (some cfgW) (TestArgs.mk false false false false "weird" none)
     (by decide)⟩

/-! ### C9 — only setup (and full) write the descriptor -/

/-- C9: once the descriptor file exists, `init` and `test` (with any
flags) leave it byte-for-byte unchanged and append no write event;
`status`, `logs`, `posture` and `guardrails` never touch it either; and
when the file is absent, `init` and `test` regenerate it (through the
`setup` logic) from the credentials. -/
theorem c9_descriptor_immutable_outside_setup (o : Oracle) (env : Env)
    (cfg : BotConfig) (targs : TestArgs) (gargs : GuardrailsArgs)
    (w f : Bool) (u k : String) (hu : u ≠ "") (hk : k ≠ "") :
    ((cmd_init o env (St.mk [] (some cfg))).1.fs = some cfg ∧
      ∀ e ∈ (cmd_init o env (St.mk [] (some cfg))).1.events,
        isWrite e = false) ∧
    ((cmd_test o env targs (St.mk [] (some cfg))).1.fs = some cfg ∧
      ∀ e ∈ (cmd_test o env targs (St.mk [] (some cfg))).1.events,
        isWrite e = false) ∧
    (cmd_status o w (St.mk [] (some cfg))).fs = some cfg ∧
    (cmd_logs o f (St.mk [] (some cfg))).fs = some cfg ∧
    (cmd_posture o (St.mk [] (some cfg))).fs = some cfg ∧
    (cmd_guardrails o gargs (St.mk [] (some cfg))).fs = some cfg ∧
    (cmd_init o (Env.mk (some u) (some k)) (St.mk [] none)).1.fs =
      some (bot_config u k) ∧
    (cmd_test o (Env.mk (some u) (some k)) targs (St.mk [] none)).1.fs =
      some (bot_config u k) := by
  have haw := authTrace_no_write o
  refine ⟨⟨?_, ?_⟩, ⟨?_, ?_⟩, ?_, ?_, ?_, ?_, ?_, ?_⟩
  · simp [cmd_init, ensure_logged_in_eq, ensure_bot_json, run]
  · intro e he
    simp only [cmd_init, ensure_logged_in_eq, ensure_bot_json, run,
      List.nil_append, List.mem_append, List.mem_singleton] at he
    rcases he with he | rfl
    · exact haw e he
    · rfl
  · by_cases hl : targs.level ∉ TEST_LEVELS <;>
      simp [cmd_test, ensure_logged_in_eq, ensure_bot_json, run, hl]
  · intro e he
    by_cases hl : targs.level ∉ TEST_LEVELS
    · simp only [cmd_test, ensure_logged_in_eq, ensure_bot_json, run,
        if_pos hl, List.nil_append] at he
      exact haw e he
    · simp only [cmd_test, ensure_logged_in_eq, ensure_bot_json, run,
        if_neg hl, List.nil_append, List.mem_append,
        List.mem_singleton] at he
      rcases he with he | rfl
      · exact haw e he
      · rfl
  · simp [cmd_status, ensure_logged_in_eq, run]
  · simp [cmd_logs, ensure_logged_in_eq, run]
  · simp [cmd_posture, ensure_logged_in_eq, run]
  · simp [cmd_guardrails, ensure_logged_in_eq, run]
  · rw [cmd_init, ensure_logged_in_eq]
    simp only [ensure_bot_json]
    rw [cmd_setup_ok u k _ hu hk]
    simp [run]
  · rw [cmd_test, ensure_logged_in_eq]
    simp only [ensure_bot_json]
    rw [cmd_setup_ok u k _ hu hk]
    by_cases hl : targs.level ∉ TEST_LEVELS <;> simp [run, hl]

/-- C9 witness: concrete credentials, an existing concrete descriptor,
default flags. -/
theorem c9_descriptor_immutable_outside_setup_witness :
    ("https://api.example/chat" ≠ "" ∧ "secretkey" ≠ "") ∧
    ((cmd_init oZero (Env.mk (some "u") (some "k"))
        (St.mk [] (some cfgW))).1.fs = some cfgW ∧
      ∀ e ∈ (cmd_init oZero (Env.mk (some "u") (some "k"))
          (St.mk [] (some cfgW))).1.events, isWrite e = false) ∧
    ((cmd_test oZero (Env.mk (some "u") (some "k"))
        (TestArgs.mk false false false false "unit" none)
        (St.mk [] (some cfgW))).1.fs = some cfgW ∧
      ∀ e ∈ (cmd_test oZero (Env.mk (some "u") (some "k"))
          (TestArgs.mk false false false false "unit" none)
          (St.mk [] (some cfgW))).1.events, isWrite e = false) ∧
    (cmd_status oZero false (St.mk [] (some cfgW))).fs = some cfgW ∧
    (cmd_logs oZero false (St.mk [] (some cfgW))).fs = some cfgW ∧
    (cmd_posture oZero (St.mk [] (some cfgW))).fs = some cfgW ∧
    (cmd_guardrails oZero guardrailsDefaults
        (St.mk [] (some cfgW))).fs = some cfgW ∧
    (cmd_init oZero (Env.mk (some "https://api.example/chat")
        (some "secretkey")) (St.mk [] none)).1.fs =
      some (bot_config "https://api.example/chat" "secretkey") ∧
    (cmd_test oZero (Env.mk (some "https://api.example/chat")
        (some "secretkey"))
        (TestArgs.mk false false false false "unit" none)
        (St.mk [] none)).1.fs =
      some (bot_config "https://api.example/chat" "secretkey") :=
  ⟨⟨by decide, by decide⟩,
   c9_descriptor_immutable_outside_setup oZero (Env.mk (some "u") (some "k"))
     cfgW (TestArgs.mk false false false false "unit" none)
     guardrailsDefaults false false "https://api.example/chat" "secretkey"
     (by decide) (by decide)⟩

end Redteam
